import Mathlib

/-!
Verification of the VisionCut AI client (`src/frontend/src/App.jsx`) against
its natural-language specification.  The React component is embedded shallowly:
its `useState` cells become fields of `ClientState`, each handler becomes a
pure function from the state (and the server responses it awaits) to a new
state together with the list of outward effects (HTTP requests, alerts,
opened URLs) it performs.  The backend (Job Orchestrator) is not part of the
provided sources; where a claim depends on it, it is modelled from the spec
and the definition says so in its doc comment.
-/

/-- The base URL the client prefixes to every request (`API_BASE` in App.jsx). -/
def API_BASE : String := "http://localhost:8000"

/-- The comma-separated platform list the client sends on upload
(`formData.append('platforms', 'youtube,instagram,tiktok')`). -/
def uploadPlatforms : String := "youtube,instagram,tiktok"

/-- The delay, in milliseconds, between two status polls
(`setInterval(..., 2000)` in `pollStatus`). -/
def pollDelayMs : Nat := 2000

/-- JavaScript `String.prototype.trim`: drops leading and trailing
whitespace (defined structurally over the character list). -/
def jsTrim (s : String) : String :=
  ⟨((s.data.dropWhile Char.isWhitespace).reverse.dropWhile
      Char.isWhitespace).reverse⟩

/-- JavaScript `a || d` for a possibly-absent string field: `undefined`,
`null` and the empty string are falsy, everything else is kept. -/
def jsOrS (v : Option String) (d : String) : String :=
  match v with
  | none => d
  | some s => if s = "" then d else s

/-- JavaScript `a || d` for a possibly-absent numeric field: `undefined`,
`null` and `0` are falsy. -/
def jsOrN (v : Option Nat) (d : Nat) : Nat :=
  match v with
  | none => d
  | some n => if n = 0 then d else n

/-- The `ai_analysis` object of a detailed status response. -/
structure AiAnalysis where
  mode : Option String
  detected_emotion : Option String
  operations_count : Option Nat
  deriving Repr, DecidableEq

/-- Body of a `/api/status/{id}/detailed` response, as read by `pollStatus`. -/
structure StatusData where
  status : String
  progress_percentage : Option Nat
  ai_analysis : Option AiAnalysis
  output_video : Option String
  deriving Repr, DecidableEq

/-- The client's per-platform output mapping (the `outputs` state cell). -/
structure Outputs where
  youtube : Option String
  instagram : Option String
  tiktok : Option String
  master : Option String
  deriving Repr, DecidableEq

/-- The `useState` cells of the `App` component that the editing flow touches. -/
structure ClientState where
  videoFile : Option String
  prompt : String
  projectId : Option String
  status : String
  progress : Nat
  aiUnderstanding : List String
  terminalLogs : List String
  outputs : Outputs
  deriving Repr, DecidableEq

/-- Outward effects a handler performs: HTTP requests, browser alerts and
window.open calls.  `pollStart` marks that `pollStatus(projId)` begins. -/
inductive Effect where
  | upload (video promptText platforms : String)
  | startProcessing (pid : String)
  | statusGet (pid : String)
  | pollStart (pid : String)
  | openUrl (url : String)
  | alert (msg : String)
  deriving Repr, DecidableEq

/-- `addLog` from App.jsx: appends `[AI] msg` to the terminal log. -/
def addLog (s : ClientState) (msg : String) : ClientState :=
  { s with terminalLogs := s.terminalLogs ++ ["[AI] " ++ msg] }

/-- Folds `addLog` over a list of messages (consecutive `addLog` calls). -/
def addLogs (s : ClientState) (msgs : List String) : ClientState :=
  msgs.foldl addLog s

/-- The six AI-understanding lines `startEditing` displays before uploading. -/
def planningLines : List String :=
  ["• Analyzing your prompt...",
   "• Detecting required operations",
   "• Planning multi-platform optimization",
   "• YouTube (16:9), Instagram (9:16), TikTok (9:16)",
   "• Preparing emotion analysis",
   "• Setting up audio enhancement"]

/-- The AI-understanding lines rendered from a status response's
`ai_analysis` object, with the `||` fallbacks of App.jsx lines 109-114. -/
def analysisLines (a : AiAnalysis) : List String :=
  ["• Mode: " ++ jsOrS a.mode "custom",
   "• Detected emotion: " ++ jsOrS a.detected_emotion "balanced",
   "• Operations: " ++ toString (jsOrN a.operations_count 0),
   "• Platforms: YouTube, Instagram, TikTok",
   "• Audio enhancement: Active",
   "• Subtitle generation: Active"]

/-- The ten log lines emitted while a poll reports status `processing`. -/
def processingLogs : List String :=
  ["Applying AI-powered edits...",
   "Removing background noise...",
   "Enhancing audio quality...",
   "Analyzing emotions for smart trimming...",
   "Removing boring/dull parts...",
   "Generating synchronized subtitles...",
   "Adding background music...",
   "Optimizing for YouTube (16:9)...",
   "Optimizing for Instagram (9:16)...",
   "Optimizing for TikTok (9:16)..."]

/-- `startEditing` from App.jsx.  `uploadResp` is the outcome of the awaited
`POST /api/upload/multiplatform` (`.ok pid` carries `data.project_id`),
`procResp` the outcome of `POST /api/process/complete/{pid}`; `.error`
means the axios promise rejected and the `catch` block runs.  Returns the
new state and the effect list, in program order. -/
def startEditing (s : ClientState) (uploadResp : Except String String)
    (procResp : Except String Unit) : ClientState × List Effect :=
  match s.videoFile with
  | none => (s, [Effect.alert "Please upload a video first"])
  | some v =>
    if jsTrim s.prompt = "" then
      (s, [Effect.alert "Please enter a prompt describing what you want"])
    else
      let s1 := { s with aiUnderstanding := planningLines }
      let s2 := addLog s1 "Uploading video..."
      match uploadResp with
      | Except.error m =>
          (addLog s2 ("Error: " ++ m),
           [Effect.upload v s.prompt uploadPlatforms,
            Effect.alert "Processing failed. Please try again."])
      | Except.ok pid =>
          let s3 := { s2 with projectId := some pid }
          let s4 := addLog (addLog s3 "Video uploaded successfully!")
                      "Starting AI analysis..."
          match procResp with
          | Except.error m =>
              (addLog s4 ("Error: " ++ m),
               [Effect.upload v s.prompt uploadPlatforms,
                Effect.startProcessing pid,
                Effect.alert "Processing failed. Please try again."])
          | Except.ok _ =>
              let s5 := addLog { s4 with status := "processing" }
                          "AI Brain analyzing emotions and planning edits..."
              (s5, [Effect.upload v s.prompt uploadPlatforms,
                    Effect.startProcessing pid,
                    Effect.pollStart pid])

/-- One tick of the `setInterval` body in `pollStatus`: processes the
response of one `GET /api/status/{id}/detailed`.  The `Bool` is `false`
exactly when `clearInterval` ran (status `completed` or `failed`); a
rejected request only hits `console.error` and the interval keeps going. -/
def pollTick (s : ClientState) (r : Except String StatusData) :
    ClientState × List Effect × Bool :=
  match r with
  | Except.error _ => (s, [], true)
  | Except.ok d =>
    let s1 := { s with status := d.status,
                       progress := jsOrN d.progress_percentage 0 }
    let s2 := match d.ai_analysis with
      | some a => { s1 with aiUnderstanding := analysisLines a }
      | none => s1
    let s3 :=
      if d.status == "analyzing" then
        addLog s2 "Analyzing emotions and audio features..."
      else if d.status == "processing" then addLogs s2 processingLogs
      else s2
    if d.status == "completed" then
      let s4 := addLog (addLog s3 "Processing complete! ✓")
                  "All platform versions ready for download"
      ({ s4 with outputs := ⟨d.output_video, d.output_video,
                             d.output_video, d.output_video⟩ }, [], false)
    else if d.status == "failed" then
      (addLog s3 "Processing failed ✗",
       [Effect.alert "Processing failed. Please try again."], false)
    else (s3, [], true)

/-- Whether a poll response makes the interval stop (terminal status). -/
def stopsPolling (r : Except String StatusData) : Bool :=
  match r with
  | Except.error _ => false
  | Except.ok d => d.status == "completed" || d.status == "failed"

/-- The polling loop started by `pollStatus(projId)`: every tick issues one
`GET /api/status/{projId}/detailed`, then processes the next response,
until a tick clears the interval; later responses are never consumed. -/
def pollSteps (pid : String) (s : ClientState)
    (rs : List (Except String StatusData)) : ClientState × List Effect :=
  match rs with
  | [] => (s, [])
  | r :: rest =>
      if (pollTick s r).2.2 then
        ((pollSteps pid (pollTick s r).1 rest).1,
         Effect.statusGet pid :: (pollTick s r).2.1 ++
           (pollSteps pid (pollTick s r).1 rest).2)
      else ((pollTick s r).1, Effect.statusGet pid :: (pollTick s r).2.1)

/-- `downloadVideo` from App.jsx: JavaScript `!projectId` is true both for
`null` and for the empty string, and the function returns before doing
anything in that case; otherwise it opens the download URL and logs. -/
def downloadVideo (s : ClientState) (platform : String) :
    ClientState × List Effect :=
  match s.projectId with
  | none => (s, [])
  | some pid =>
      if pid = "" then (s, [])
      else
        (addLog s ("Downloading " ++ platform ++ " version..."),
         [Effect.openUrl (API_BASE ++ "/api/download/" ++ pid ++ "/" ++ platform)])

/-- Modelled from the spec: the Job Orchestrator's lifecycle states
(`queued → analyzing → processing → completed|failed`); the backend that
owns them is not among the provided sources. -/
inductive Stage where
  | queued
  | analyzing
  | processing
  | completed
  | failed
  deriving Repr, DecidableEq

/-- The status string a stage is reported as over the status API. -/
def Stage.toStatusString : Stage → String
  | Stage.queued => "queued"
  | Stage.analyzing => "analyzing"
  | Stage.processing => "processing"
  | Stage.completed => "completed"
  | Stage.failed => "failed"

/-- Modelled from the spec: the mutable Job record the missing backend keeps
per Project — requested platforms, per-platform artifact mapping, lifecycle
stage and progress percentage. -/
structure Job where
  requested : List String
  artifacts : List (String × String)
  stage : Stage
  progress : Nat
  deriving Repr, DecidableEq

/-- Modelled from the spec: the fresh Job created when processing starts. -/
def initJob (req : List String) : Job :=
  { requested := req, artifacts := [], stage := Stage.queued, progress := 0 }

/-- Modelled from the spec: the Orchestrator's transitions (section 4.5 of
the spec; the backend is missing from the sources).  Analysis keeps progress
in 0-20, plan availability moves to `processing` at 20, execution and
per-platform rendering only raise progress up to 100, `completed` is entered
only when every requested platform has an artifact, and any non-terminal
stage may fail.  No constructor leaves `completed` or `failed`. -/
inductive Step : Job → Job → Prop
  | startAnalyze (j : Job) : j.stage = Stage.queued →
      Step j { j with stage := Stage.analyzing }
  | analyzeTick (j : Job) (p : Nat) : j.stage = Stage.analyzing →
      j.progress ≤ p → p ≤ 20 → Step j { j with progress := p }
  | planReady (j : Job) : j.stage = Stage.analyzing → j.progress ≤ 20 →
      Step j { j with stage := Stage.processing, progress := 20 }
  | execTick (j : Job) (p : Nat) : j.stage = Stage.processing →
      j.progress ≤ p → p ≤ 100 → Step j { j with progress := p }
  | renderDone (j : Job) (pl art : String) (p : Nat) :
      j.stage = Stage.processing → pl ∈ j.requested →
      j.progress ≤ p → p ≤ 100 →
      Step j { j with artifacts := (pl, art) :: j.artifacts, progress := p }
  | complete (j : Job) : j.stage = Stage.processing →
      (∀ pl ∈ j.requested, (j.artifacts.lookup pl).isSome) →
      Step j { j with stage := Stage.completed, progress := 100 }
  | fail (j : Job) :
      (j.stage = Stage.queued ∨ j.stage = Stage.analyzing ∨
        j.stage = Stage.processing) →
      Step j { j with stage := Stage.failed }

/-- A Job state the Orchestrator can actually be in for a run requesting
the platform list `req`. -/
inductive Reachable (req : List String) : Job → Prop
  | init : Reachable req (initJob req)
  | step {j j' : Job} : Reachable req j → Step j j' → Reachable req j'

/-- Modelled from the spec: the status-read snapshot a poll returns for a
Job (the status endpoint itself belongs to the missing backend). -/
def statusOf (j : Job) : StatusData :=
  { status := j.stage.toStatusString,
    progress_percentage := some j.progress,
    ai_analysis := none,
    output_video := j.artifacts.lookup "master" }

/-- Modelled from the spec: the Orchestrator's per-Project job table. -/
structure OrchState where
  jobs : List (String × Job)
  deriving Repr, DecidableEq

/-- A stage from which no transition exists. -/
def Stage.isTerminal : Stage → Bool
  | Stage.completed => true
  | Stage.failed => true
  | _ => false

/-- Modelled from the spec: the start-processing operation of the missing
backend — it refuses to start a second Job while one is non-terminal for
the same Project (idempotent per Project), and otherwise installs a fresh
Job. -/
def startProcessingOp (st : OrchState) (pid : String) (req : List String) :
    OrchState :=
  match st.jobs.lookup pid with
  | some j => if j.stage.isTerminal
      then { jobs := (pid, initJob req) :: st.jobs }
      else st
  | none => { jobs := (pid, initJob req) :: st.jobs }

/-- Every step preserves the requested platform list. -/
theorem Step.requested_eq {j j' : Job} (h : Step j j') :
    j'.requested = j.requested := by
  cases h <;> rfl

/-- Progress never exceeds 100 on reachable jobs. -/
theorem Reachable.progress_le {req : List String} {j : Job}
    (h : Reachable req j) : j.progress ≤ 100 := by
  induction h with
  | init => exact Nat.zero_le _
  | step _ hs ih =>
      cases hs with
      | startAnalyze _ => exact ih
      | analyzeTick p _ _ h20 => exact Nat.le_trans h20 (by norm_num)
      | planReady _ _ => show 20 ≤ 100; norm_num
      | execTick p _ _ h100 => exact h100
      | renderDone pl art p _ _ _ h100 => exact h100
      | complete _ _ => exact le_refl _
      | fail _ => exact ih

/-- A single step never decreases progress (for reachable jobs). -/
theorem Step.progress_mono {req : List String} {j j' : Job}
    (hr : Reachable req j) (h : Step j j') : j.progress ≤ j'.progress := by
  cases h with
  | startAnalyze _ => exact le_refl _
  | analyzeTick p _ hp _ => exact hp
  | planReady _ hp => exact hp
  | execTick p _ hp _ => exact hp
  | renderDone pl art p _ _ hp _ => exact hp
  | complete _ _ => exact hr.progress_le
  | fail _ => exact le_refl _

/-- Recognises the status-read requests among effects. -/
def isStatusGet : Effect → Bool
  | Effect.statusGet _ => true
  | _ => false

/-- Number of status-read requests in an effect list. -/
def countPolls (effs : List Effect) : Nat := (effs.filter isStatusGet).length

theorem addLogs_progress (msgs : List String) (s : ClientState) :
    (addLogs s msgs).progress = s.progress := by
  induction msgs generalizing s with
  | nil => rfl
  | cons m rest ih => exact ih (addLog s m)

theorem addLogs_status (msgs : List String) (s : ClientState) :
    (addLogs s msgs).status = s.status := by
  induction msgs generalizing s with
  | nil => rfl
  | cons m rest ih => exact ih (addLog s m)

theorem addLogs_aiUnderstanding (msgs : List String) (s : ClientState) :
    (addLogs s msgs).aiUnderstanding = s.aiUnderstanding := by
  induction msgs generalizing s with
  | nil => rfl
  | cons m rest ih => exact ih (addLog s m)

theorem addLogs_outputs (msgs : List String) (s : ClientState) :
    (addLogs s msgs).outputs = s.outputs := by
  induction msgs generalizing s with
  | nil => rfl
  | cons m rest ih => exact ih (addLog s m)

/-- A rejected status request leaves the client completely unchanged and
the interval running (only `console.error` runs). -/
theorem pollTick_error (s : ClientState) (m : String) :
    pollTick s (Except.error m) = (s, [], true) := rfl

/-- After processing any successful poll response, the stored progress is
exactly `data.progress_percentage || 0`. -/
theorem pollTick_progress (s : ClientState) (d : StatusData) :
    (pollTick s (Except.ok d)).1.progress = jsOrN d.progress_percentage 0 := by
  simp only [pollTick]
  cases ha : d.ai_analysis <;>
    by_cases h1 : d.status = "completed" <;>
    by_cases h2 : d.status = "failed" <;>
    by_cases h3 : d.status = "analyzing" <;>
    by_cases h4 : d.status = "processing" <;>
      simp [ha, h1, h2, h3, h4, addLog, addLogs_progress]

/-- After processing any successful poll response, the stored status is
exactly the reported one. -/
theorem pollTick_status (s : ClientState) (d : StatusData) :
    (pollTick s (Except.ok d)).1.status = d.status := by
  simp only [pollTick]
  cases ha : d.ai_analysis <;>
    by_cases h1 : d.status = "completed" <;>
    by_cases h2 : d.status = "failed" <;>
    by_cases h3 : d.status = "analyzing" <;>
    by_cases h4 : d.status = "processing" <;>
      simp [ha, h1, h2, h3, h4, addLog, addLogs_status]

/-- The AI-understanding panel after a successful poll: rebuilt from
`ai_analysis` when that object is present, untouched otherwise. -/
theorem pollTick_aiUnderstanding (s : ClientState) (d : StatusData) :
    (pollTick s (Except.ok d)).1.aiUnderstanding =
      (match d.ai_analysis with
       | some a => analysisLines a
       | none => s.aiUnderstanding) := by
  simp only [pollTick]
  cases ha : d.ai_analysis <;>
    by_cases h1 : d.status = "completed" <;>
    by_cases h2 : d.status = "failed" <;>
    by_cases h3 : d.status = "analyzing" <;>
    by_cases h4 : d.status = "processing" <;>
      simp [ha, h1, h2, h3, h4, addLog, addLogs_aiUnderstanding]

/-- On a `completed` poll the client records `output_video` as the output
of every one of the four platform slots. -/
theorem pollTick_completed_outputs (s : ClientState) (d : StatusData)
    (hd : d.status = "completed") :
    (pollTick s (Except.ok d)).1.outputs =
      ⟨d.output_video, d.output_video, d.output_video, d.output_video⟩ := by
  simp only [pollTick]
  cases ha : d.ai_analysis <;> simp [ha, hd, addLog]

/-- The interval keeps running exactly when the response is a rejection or
a non-terminal status. -/
theorem pollTick_keepGoing (s : ClientState) (r : Except String StatusData) :
    (pollTick s r).2.2 = !stopsPolling r := by
  cases r with
  | error m => rfl
  | ok d =>
      simp only [pollTick, stopsPolling]
      cases ha : d.ai_analysis <;>
        by_cases h1 : d.status = "completed" <;>
        by_cases h2 : d.status = "failed" <;>
        by_cases h3 : d.status = "analyzing" <;>
        by_cases h4 : d.status = "processing" <;>
          simp [ha, h1, h2, h3, h4]

/-- The only effect a poll tick can perform is the failure alert (in
particular it never issues a status request itself). -/
theorem pollTick_effects (s : ClientState) (r : Except String StatusData) :
    (pollTick s r).2.1 = [] ∨
      (pollTick s r).2.1 = [Effect.alert "Processing failed. Please try again."] := by
  cases r with
  | error m => exact Or.inl rfl
  | ok d =>
      simp only [pollTick]
      cases ha : d.ai_analysis <;>
        by_cases h1 : d.status = "completed" <;>
        by_cases h2 : d.status = "failed" <;>
        by_cases h3 : d.status = "analyzing" <;>
        by_cases h4 : d.status = "processing" <;>
          simp [ha, h1, h2, h3, h4]

/-- A `failed` poll response appends exactly the failure log line. -/
theorem pollTick_failed_logs (s : ClientState) (d : StatusData)
    (hd : d.status = "failed") :
    (pollTick s (Except.ok d)).1.terminalLogs =
      s.terminalLogs ++ ["[AI] Processing failed ✗"] := by
  simp only [pollTick]
  cases ha : d.ai_analysis <;> simp [ha, hd, addLog]

/-- A `failed` poll response raises exactly the failure alert. -/
theorem pollTick_failed_effects (s : ClientState) (d : StatusData)
    (hd : d.status = "failed") :
    (pollTick s (Except.ok d)).2.1 =
      [Effect.alert "Processing failed. Please try again."] := by
  simp only [pollTick]
  cases ha : d.ai_analysis <;> simp [ha, hd]

theorem countPolls_append (a b : List Effect) :
    countPolls (a ++ b) = countPolls a + countPolls b := by
  simp [countPolls, List.filter_append]

theorem countPolls_pollTick (s : ClientState) (r : Except String StatusData) :
    countPolls (pollTick s r).2.1 = 0 := by
  rcases pollTick_effects s r with h | h <;>
    simp [h, countPolls, isStatusGet]

theorem countPolls_cons_get (pid : String) (l : List Effect) :
    countPolls (Effect.statusGet pid :: l) = countPolls l + 1 := by
  simp [countPolls, isStatusGet]

/-- Once a tick stops the interval, later responses are never consumed:
the loop run on `pre ++ r :: post` equals the loop run on `pre ++ [r]`
whenever no response in `pre` is terminal and `r` is. -/
theorem pollSteps_cut (pid : String) (r : Except String StatusData)
    (hr : stopsPolling r = true) :
    ∀ (pre : List (Except String StatusData)) (s : ClientState)
      (post : List (Except String StatusData)),
      (∀ x ∈ pre, stopsPolling x = false) →
      pollSteps pid s (pre ++ r :: post) = pollSteps pid s (pre ++ [r]) := by
  intro pre
  induction pre with
  | nil =>
      intro s post _
      simp only [List.nil_append, pollSteps]
      rw [pollTick_keepGoing, hr]
      simp
  | cons x xs ih =>
      intro s post hpre
      have hx : stopsPolling x = false := hpre x (by simp)
      simp only [List.cons_append, pollSteps]
      rw [pollTick_keepGoing, hx]
      simp only [Bool.not_false, if_true, List.append_eq]
      rw [ih (pollTick s x).1 post (fun y hy => hpre y (by simp [hy]))]

/-- While no response is terminal, every tick issues exactly one status
request: the loop issues as many polls as it consumes responses. -/
theorem pollSteps_count_nonstop (pid : String) :
    ∀ (rs : List (Except String StatusData)) (s : ClientState),
      (∀ x ∈ rs, stopsPolling x = false) →
      countPolls (pollSteps pid s rs).2 = rs.length := by
  intro rs
  induction rs with
  | nil => intro s _; simp [pollSteps, countPolls]
  | cons x xs ih =>
      intro s hrs
      have hx : stopsPolling x = false := hrs x (by simp)
      simp only [pollSteps]
      rw [pollTick_keepGoing, hx]
      simp only [Bool.not_false, if_true]
      rw [countPolls_append, countPolls_cons_get, countPolls_pollTick,
        ih (pollTick s x).1 (fun y hy => hrs y (by simp [hy]))]
      simp [Nat.add_comm]

/-- A run that ends on its first terminal response issues exactly
`pre.length + 1` status requests. -/
theorem pollSteps_count_stop (pid : String) (r : Except String StatusData)
    (hr : stopsPolling r = true) :
    ∀ (pre : List (Except String StatusData)) (s : ClientState),
      (∀ x ∈ pre, stopsPolling x = false) →
      countPolls (pollSteps pid s (pre ++ [r])).2 = pre.length + 1 := by
  intro pre
  induction pre with
  | nil =>
      intro s _
      simp only [List.nil_append, pollSteps]
      rw [pollTick_keepGoing, hr]
      simp only [Bool.not_true, if_neg Bool.false_ne_true]
      rw [countPolls_cons_get, countPolls_pollTick]
      simp
  | cons x xs ih =>
      intro s hpre
      have hx : stopsPolling x = false := hpre x (by simp)
      simp only [List.cons_append, pollSteps]
      rw [pollTick_keepGoing, hx]
      simp only [Bool.not_false, if_true, List.append_eq]
      rw [countPolls_cons_get, countPolls_append, countPolls_pollTick,
        ih (pollTick s x).1 (fun y hy => hpre y (by simp [hy]))]
      simp [Nat.add_comm]

/-- Every status request the polling loop issues names the very project
identifier the loop was started with. -/
theorem pollSteps_statusGets (pid : String) :
    ∀ (rs : List (Except String StatusData)) (s : ClientState),
      ∀ e ∈ (pollSteps pid s rs).2, isStatusGet e = true →
        e = Effect.statusGet pid := by
  intro rs
  induction rs with
  | nil => intro s e he _; simp [pollSteps] at he
  | cons x xs ih =>
      intro s e he hsg
      have hmem : e = Effect.statusGet pid ∨ e ∈ (pollTick s x).2.1 ∨
          e ∈ (pollSteps pid (pollTick s x).1 xs).2 := by
        simp only [pollSteps] at he
        cases hb : (pollTick s x).2.2 <;> rw [hb] at he <;> simp at he <;> tauto
      rcases hmem with h | h | h
      · exact h
      · rcases pollTick_effects s x with hp | hp
        · rw [hp] at h; simp at h
        · rw [hp] at h; simp at h
          rw [h] at hsg
          simp [isStatusGet] at hsg
      · exact ih (pollTick s x).1 e h hsg

/-- No Orchestrator transition leaves a terminal stage. -/
theorem Step.not_terminal {j j' : Job} (h : Step j j') :
    j.stage.isTerminal = false := by
  cases h with
  | startAnalyze h => simp [h, Stage.isTerminal]
  | analyzeTick p h _ _ => simp [h, Stage.isTerminal]
  | planReady h _ => simp [h, Stage.isTerminal]
  | execTick p h _ _ => simp [h, Stage.isTerminal]
  | renderDone pl art p h _ _ _ => simp [h, Stage.isTerminal]
  | complete h _ => simp [h, Stage.isTerminal]
  | fail h => rcases h with h | h | h <;> simp [h, Stage.isTerminal]

/-- On every reachable completed Job, each requested platform has an
artifact recorded. -/
theorem Reachable.completed_artifacts {req : List String} {j : Job}
    (h : Reachable req j) (hc : j.stage = Stage.completed) :
    ∀ pl ∈ j.requested, (j.artifacts.lookup pl).isSome := by
  induction h with
  | init => simp [initJob] at hc
  | step hr hs ih =>
      cases hs with
      | startAnalyze h => dsimp at hc; cases hc
      | analyzeTick p h _ _ => dsimp at hc; rw [h] at hc; cases hc
      | planReady h _ => dsimp at hc; cases hc
      | execTick p h _ _ => dsimp at hc; rw [h] at hc; cases hc
      | renderDone pl art p h _ _ _ => dsimp at hc; rw [h] at hc; cases hc
      | complete h hall => intro pl hpl; exact hall pl hpl
      | fail h => dsimp at hc; cases hc

/-- The initial `useState` values of the `App` component. -/
def initialClient : ClientState :=
  { videoFile := none, prompt := "", projectId := none, status := "",
    progress := 0, aiUnderstanding := ["Waiting for prompt & video..."],
    terminalLogs := ["[AI] System ready."],
    outputs := ⟨none, none, none, none⟩ }

theorem jsOrN_some_zero (n : Nat) : jsOrN (some n) 0 = n := by
  by_cases h : n = 0 <;> simp [jsOrN, h]

/-- Along any orchestrator run, the raw progress values form a
non-decreasing sequence. -/
theorem chain_progress_mono (req : List String) :
    ∀ (tr : List Job) (j0 : Job), Reachable req j0 → List.Chain Step j0 tr →
      List.Chain' (fun a b => a ≤ b) ((j0 :: tr).map Job.progress) := by
  intro tr
  induction tr with
  | nil => intro j0 _ _; simp
  | cons j1 rest ih =>
      intro j0 h0 hc
      cases hc with
      | cons hstep hchain =>
          rw [List.map_cons, List.map_cons, List.chain'_cons]
          exact ⟨Step.progress_mono h0 hstep,
            by simpa using ih j1 (Reachable.step h0 hstep) hchain⟩

/-- The success path of `startEditing`: AI-understanding lines replaced,
four log lines appended, project id stored, status set, and the three
requests issued in order. -/
theorem startEditing_success (s : ClientState) (v pid : String)
    (hv : s.videoFile = some v) (hp : jsTrim s.prompt ≠ "") :
    startEditing s (Except.ok pid) (Except.ok ()) =
      ({ s with aiUnderstanding := planningLines,
                projectId := some pid,
                status := "processing",
                terminalLogs := s.terminalLogs ++
                  ["[AI] Uploading video...",
                   "[AI] Video uploaded successfully!",
                   "[AI] Starting AI analysis...",
                   "[AI] AI Brain analyzing emotions and planning edits..."] },
       [Effect.upload v s.prompt uploadPlatforms, Effect.startProcessing pid,
        Effect.pollStart pid]) := by
  simp only [startEditing, hv]
  rw [if_neg hp]
  simp [addLog]

/-- C4: with no video file or an all-whitespace prompt, `startEditing`
rejects immediately: the state (hence the project) is untouched and the
only effect is the alert — no upload, no start-processing request. -/
theorem C4_input_validation (s : ClientState)
    (u : Except String String) (p : Except String Unit)
    (h : s.videoFile = none ∨ jsTrim s.prompt = "") :
    (startEditing s u p).1 = s ∧
      ∀ e ∈ (startEditing s u p).2, ∃ m, e = Effect.alert m := by
  rcases h with h | h
  · simp [startEditing, h]
  · cases hv : s.videoFile with
    | none => simp [startEditing, hv]
    | some v => simp [startEditing, hv, h]

/-- Witness for C4 at a concrete state: empty prompt, video present. -/
theorem C4_input_validation_witness :
    (startEditing ⟨some "clip.mp4", "   ", none, "", 0, [], [], ⟨none, none, none, none⟩⟩
        (Except.ok "p1") (Except.ok ())).1 =
      ⟨some "clip.mp4", "   ", none, "", 0, [], [], ⟨none, none, none, none⟩⟩ ∧
    ∀ e ∈ (startEditing ⟨some "clip.mp4", "   ", none, "", 0, [], [], ⟨none, none, none, none⟩⟩
        (Except.ok "p1") (Except.ok ())).2, ∃ m, e = Effect.alert m :=
  C4_input_validation _ _ _ (Or.inr (by decide))

/-- Concrete completed Job used to witness the completion invariant. -/
def jC1 : Job :=
  { requested := ["youtube", "instagram", "tiktok"],
    artifacts := [("tiktok", "t.mp4"), ("instagram", "i.mp4"),
                  ("youtube", "y.mp4")],
    stage := Stage.completed, progress := 100 }

/-- Concrete `completed` status response used in witnesses. -/
def dC1 : StatusData :=
  { status := "completed", progress_percentage := some 100,
    ai_analysis := none, output_video := some "out.mp4" }

theorem jC1_reachable : Reachable ["youtube", "instagram", "tiktok"] jC1 := by
  have h0 : Reachable ["youtube", "instagram", "tiktok"]
      (initJob ["youtube", "instagram", "tiktok"]) := Reachable.init
  have h1 := Reachable.step h0 (Step.startAnalyze _ rfl)
  have h2 := Reachable.step h1 (Step.planReady _ rfl (by decide))
  have h3 := Reachable.step h2
    (Step.renderDone _ "youtube" "y.mp4" 40 rfl (by decide) (by decide) (by decide))
  have h4 := Reachable.step h3
    (Step.renderDone _ "instagram" "i.mp4" 60 rfl (by decide) (by decide) (by decide))
  have h5 := Reachable.step h4
    (Step.renderDone _ "tiktok" "t.mp4" 80 rfl (by decide) (by decide) (by decide))
  exact Reachable.step h5 (Step.complete _ rfl (by decide))

/-- C1: on any reachable Job a `completed` status means every platform
requested at upload time has an artifact, and on a `completed` poll the
client records the response's `output_video` as the output of youtube,
instagram, tiktok and master — the three platforms it requested at upload
(`uploadPlatforms`). -/
theorem C1_completion_invariant (req : List String) (j : Job)
    (hr : Reachable req j) (hj : j.stage = Stage.completed)
    (s : ClientState) (d : StatusData) (hd : d.status = "completed") :
    (∀ pl ∈ j.requested, (j.artifacts.lookup pl).isSome) ∧
      (pollTick s (Except.ok d)).1.outputs =
        ⟨d.output_video, d.output_video, d.output_video, d.output_video⟩ ∧
      uploadPlatforms = "youtube,instagram,tiktok" :=
  ⟨hr.completed_artifacts hj, pollTick_completed_outputs s d hd, rfl⟩

/-- Witness for C1 on a concrete completed run and a concrete poll. -/
theorem C1_completion_invariant_witness :
    (∀ pl ∈ jC1.requested, (jC1.artifacts.lookup pl).isSome) ∧
      (pollTick initialClient (Except.ok dC1)).1.outputs =
        ⟨dC1.output_video, dC1.output_video, dC1.output_video,
         dC1.output_video⟩ ∧
      uploadPlatforms = "youtube,instagram,tiktok" :=
  C1_completion_invariant ["youtube", "instagram", "tiktok"] jC1
    jC1_reachable rfl initialClient dC1 rfl

/-- C2: across the polls of one run, the progress value the client stores
(`setProgress(data.progress_percentage || 0)` applied to each status-read
snapshot) never decreases. -/
theorem C2_progress_monotone (req : List String) (s : ClientState)
    (j0 : Job) (h0 : Reachable req j0) (tr : List Job)
    (hc : List.Chain Step j0 tr) :
    List.Chain' (fun a b => a ≤ b)
      ((j0 :: tr).map fun j =>
        (pollTick s (Except.ok (statusOf j))).1.progress) := by
  have hmap : ((j0 :: tr).map fun j =>
      (pollTick s (Except.ok (statusOf j))).1.progress)
      = (j0 :: tr).map Job.progress := by
    apply List.map_congr_left
    intro j _
    rw [pollTick_progress]
    simp [statusOf, jsOrN_some_zero]
  rw [hmap]
  exact chain_progress_mono req tr j0 h0 hc

/-- Concrete jobs of a short run used to witness progress monotonicity. -/
def jW0 : Job := initJob ["youtube"]

def jW1 : Job := { jW0 with stage := Stage.analyzing }

def jW2 : Job := { jW1 with progress := 10 }

def jW3 : Job := { jW2 with stage := Stage.processing, progress := 20 }

theorem jW_chain : List.Chain Step jW0 [jW1, jW2, jW3] := by
  refine List.Chain.cons (Step.startAnalyze _ rfl) ?_
  refine List.Chain.cons (Step.analyzeTick _ 10 rfl (by decide) (by decide)) ?_
  exact List.Chain.cons (Step.planReady _ rfl (by decide)) List.Chain.nil

/-- Witness for C2 on a concrete four-state run. -/
theorem C2_progress_monotone_witness :
    List.Chain' (fun a b => a ≤ b)
      (([jW0, jW1, jW2, jW3]).map fun j =>
        (pollTick initialClient (Except.ok (statusOf j))).1.progress) :=
  C2_progress_monotone ["youtube"] initialClient jW0 Reachable.init
    [jW1, jW2, jW3] jW_chain

/-- C3: a terminal poll response makes the client clear its interval — the
loop's outcome ignores every later response and the number of status reads
is exactly the number of responses up to and including the terminal one —
and on the Orchestrator side no transition leaves `completed` or `failed`. -/
theorem C3_terminal_states (pid : String) (s : ClientState)
    (pre : List (Except String StatusData)) (r : Except String StatusData)
    (post : List (Except String StatusData))
    (hpre : ∀ x ∈ pre, stopsPolling x = false)
    (hr : stopsPolling r = true) :
    pollSteps pid s (pre ++ r :: post) = pollSteps pid s (pre ++ [r]) ∧
      countPolls (pollSteps pid s (pre ++ r :: post)).2 = pre.length + 1 ∧
      ∀ j j' : Job, Step j j' → j.stage.isTerminal = false := by
  refine ⟨pollSteps_cut pid r hr pre s post hpre, ?_,
    fun j j' h => h.not_terminal⟩
  rw [pollSteps_cut pid r hr pre s post hpre]
  exact pollSteps_count_stop pid r hr pre s hpre

/-- Concrete non-terminal and terminal responses for witnesses. -/
def dProcessing : StatusData :=
  { status := "processing", progress_percentage := some 40,
    ai_analysis := none, output_video := none }

def dFailed : StatusData :=
  { status := "failed", progress_percentage := some 40,
    ai_analysis := none, output_video := none }

/-- The one-response prefix and never-consumed tail of the C3 witness run. -/
def rsPre : List (Except String StatusData) := [Except.ok dProcessing]

def rsPost : List (Except String StatusData) := [Except.ok dC1]

/-- Witness for C3: one non-terminal poll, then `failed`, then a response
that is never consumed. -/
theorem C3_terminal_states_witness :
    pollSteps "p1" initialClient (rsPre ++ Except.ok dFailed :: rsPost) =
      pollSteps "p1" initialClient (rsPre ++ [Except.ok dFailed]) ∧
      countPolls (pollSteps "p1" initialClient
        (rsPre ++ Except.ok dFailed :: rsPost)).2 = rsPre.length + 1 ∧
      ∀ j j' : Job, Step j j' → j.stage.isTerminal = false :=
  C3_terminal_states "p1" initialClient rsPre
    (Except.ok dFailed) rsPost (by decide) (by decide)

/-- C5: a rejected status request changes nothing and polling continues
(failures of a running Job reach the client only through a status-read
response), while a response with status `failed` stops the interval,
stores the failed status, logs the failure and raises the alert. -/
theorem C5_failure_propagation (s : ClientState) (m : String)
    (d : StatusData) (hd : d.status = "failed") :
    pollTick s (Except.error m) = (s, [], true) ∧
      (pollTick s (Except.ok d)).2.2 = false ∧
      (pollTick s (Except.ok d)).2.1 =
        [Effect.alert "Processing failed. Please try again."] ∧
      (pollTick s (Except.ok d)).1.status = "failed" ∧
      (pollTick s (Except.ok d)).1.terminalLogs =
        s.terminalLogs ++ ["[AI] Processing failed ✗"] := by
  refine ⟨pollTick_error s m, ?_, pollTick_failed_effects s d hd, ?_,
    pollTick_failed_logs s d hd⟩
  · rw [pollTick_keepGoing]
    simp [stopsPolling, hd]
  · rw [pollTick_status, hd]

/-- Witness for C5 at a concrete state and failed response. -/
theorem C5_failure_propagation_witness :
    pollTick initialClient (Except.error "network down") =
        (initialClient, [], true) ∧
      (pollTick initialClient (Except.ok dFailed)).2.2 = false ∧
      (pollTick initialClient (Except.ok dFailed)).2.1 =
        [Effect.alert "Processing failed. Please try again."] ∧
      (pollTick initialClient (Except.ok dFailed)).1.status = "failed" ∧
      (pollTick initialClient (Except.ok dFailed)).1.terminalLogs =
        initialClient.terminalLogs ++ ["[AI] Processing failed ✗"] :=
  C5_failure_propagation initialClient "network down" dFailed rfl

/-- C6: the poll interval embedded from the source is 2000 ms; on the
success path the start-processing request precedes the start of polling,
`startEditing` itself never moves the progress value (progress is observed
only through the polls), and the running loop issues exactly one status
read per tick. -/
theorem C6_polling_contract (s t : ClientState) (v pid : String)
    (hv : s.videoFile = some v) (hp : jsTrim s.prompt ≠ "")
    (rs : List (Except String StatusData))
    (hrs : ∀ x ∈ rs, stopsPolling x = false) :
    pollDelayMs = 2000 ∧
      (startEditing s (Except.ok pid) (Except.ok ())).2 =
        [Effect.upload v s.prompt uploadPlatforms,
         Effect.startProcessing pid, Effect.pollStart pid] ∧
      (startEditing s (Except.ok pid) (Except.ok ())).1.progress =
        s.progress ∧
      countPolls (pollSteps pid t rs).2 = rs.length := by
  refine ⟨rfl, ?_, ?_, pollSteps_count_nonstop pid rs t hrs⟩
  · rw [startEditing_success s v pid hv hp]
  · rw [startEditing_success s v pid hv hp]

/-- A client state with a chosen video and a non-blank prompt. -/
def sReady : ClientState :=
  { initialClient with videoFile := some "clip.mp4",
                       prompt := "make it exciting" }

/-- Witness for C6 on a concrete ready state and a one-response run. -/
theorem C6_polling_contract_witness :
    pollDelayMs = 2000 ∧
      (startEditing sReady (Except.ok "p1") (Except.ok ())).2 =
        [Effect.upload "clip.mp4" sReady.prompt uploadPlatforms,
         Effect.startProcessing "p1", Effect.pollStart "p1"] ∧
      (startEditing sReady (Except.ok "p1") (Except.ok ())).1.progress =
        sReady.progress ∧
      countPolls (pollSteps "p1" initialClient rsPre).2 = rsPre.length :=
  C6_polling_contract sReady initialClient "clip.mp4" "p1" rfl (by decide)
    rsPre (by decide)

/-- C7: a successful run uploads the media with the prompt and the
platform list "youtube,instagram,tiktok", stores the upload response's
project id, sends start-processing for exactly that id, and every status
request the polling loop ever issues names that same id. -/
theorem C7_upload_flow (s t : ClientState) (v pid : String)
    (hv : s.videoFile = some v) (hp : jsTrim s.prompt ≠ "")
    (rs : List (Except String StatusData)) :
    (startEditing s (Except.ok pid) (Except.ok ())).2 =
      [Effect.upload v s.prompt uploadPlatforms,
       Effect.startProcessing pid, Effect.pollStart pid] ∧
      (startEditing s (Except.ok pid) (Except.ok ())).1.projectId =
        some pid ∧
      uploadPlatforms = "youtube,instagram,tiktok" ∧
      ∀ e ∈ (pollSteps pid t rs).2, isStatusGet e = true →
        e = Effect.statusGet pid := by
  refine ⟨?_, ?_, rfl, pollSteps_statusGets pid rs t⟩
  · rw [startEditing_success s v pid hv hp]
  · rw [startEditing_success s v pid hv hp]

/-- Witness for C7 on the same concrete ready state. -/
theorem C7_upload_flow_witness :
    (startEditing sReady (Except.ok "p7") (Except.ok ())).2 =
      [Effect.upload "clip.mp4" sReady.prompt uploadPlatforms,
       Effect.startProcessing "p7", Effect.pollStart "p7"] ∧
      (startEditing sReady (Except.ok "p7") (Except.ok ())).1.projectId =
        some "p7" ∧
      uploadPlatforms = "youtube,instagram,tiktok" ∧
      ∀ e ∈ (pollSteps "p7" initialClient rsPost).2, isStatusGet e = true →
        e = Effect.statusGet "p7" :=
  C7_upload_flow sReady initialClient "clip.mp4" "p7" rfl (by decide) rsPost

/-- C8 (spec-modelled): when no terminal Job blocks the Project, one
start-processing call leaves a Job installed and a second call is a
no-op — no new Job, no second execution. -/
theorem C8_start_processing_idempotent (st : OrchState) (pid : String)
    (req req' : List String)
    (h : ∀ j, st.jobs.lookup pid = some j → j.stage.isTerminal = false) :
    startProcessingOp (startProcessingOp st pid req) pid req' =
        startProcessingOp st pid req ∧
      (startProcessingOp st pid req).jobs.lookup pid ≠ none := by
  cases hl : st.jobs.lookup pid with
  | none =>
      constructor
      · simp [startProcessingOp, hl, List.lookup, initJob, Stage.isTerminal]
      · simp [startProcessingOp, hl, List.lookup]
  | some j =>
      have hnt := h j hl
      constructor
      · simp [startProcessingOp, hl, hnt]
      · simp [startProcessingOp, hl, hnt]

/-- An orchestrator with no job installed yet. -/
def orch0 : OrchState := { jobs := [] }

/-- Witness for C8: from an empty job table, the first call installs the
Job and the second call changes nothing. -/
theorem C8_start_processing_idempotent_witness :
    startProcessingOp (startProcessingOp orch0 "p1" ["youtube"]) "p1"
        ["youtube"] = startProcessingOp orch0 "p1" ["youtube"] ∧
      (startProcessingOp orch0 "p1" ["youtube"]).jobs.lookup "p1" ≠ none :=
  C8_start_processing_idempotent orch0 "p1" ["youtube"] ["youtube"]
    (by intro j h; simp [orch0, List.lookup] at h)

/-- The client state exhibiting the C9 counterexample: a project
identifier that is set but empty. -/
def c9State : ClientState := { initialClient with projectId := some "" }

/-- C9 counterexample: with `projectId` set to the empty string — set, not
null — `downloadVideo` opens no URL and appends no log, against the
claim's "when a project identifier is set, it opens exactly the URL". -/
theorem C9_download_counterexample :
    c9State.projectId ≠ none ∧
      downloadVideo c9State "youtube" = (c9State, []) := by
  constructor
  · simp [c9State, initialClient]
  · rfl

/-- C9 (amended): with no project identifier `downloadVideo` is a no-op,
and with a non-empty identifier it opens exactly the download URL formed
from that identifier and the platform, logging the download. -/
theorem C9_download_guard (s : ClientState) (platform pid : String) :
    (s.projectId = none → downloadVideo s platform = (s, [])) ∧
      (s.projectId = some pid → pid ≠ "" →
        downloadVideo s platform =
          (addLog s ("Downloading " ++ platform ++ " version..."),
           [Effect.openUrl
             (API_BASE ++ "/api/download/" ++ pid ++ "/" ++ platform)])) := by
  constructor
  · intro h
    simp [downloadVideo, h]
  · intro h hne
    simp [downloadVideo, h, hne]

/-- A client state holding a real (non-empty) project identifier. -/
def c9Good : ClientState := { initialClient with projectId := some "proj42" }

/-- Witness for C9 (amended) at a concrete non-empty identifier. -/
theorem C9_download_guard_witness :
    downloadVideo c9Good "youtube" =
      (addLog c9Good ("Downloading " ++ "youtube" ++ " version..."),
       [Effect.openUrl
         (API_BASE ++ "/api/download/" ++ "proj42" ++ "/" ++ "youtube")]) :=
  (C9_download_guard c9Good "youtube" "proj42").2 rfl (by decide)

/-- C10: when a poll response carries an `ai_analysis` object the panel is
rebuilt from it, a falsy `mode` shows as custom, a falsy
`detected_emotion` as balanced and a falsy `operations_count` as 0; a
response without the object leaves the panel unchanged. -/
theorem C10_display_defaults (s : ClientState) (d : StatusData)
    (a : AiAnalysis) :
    (d.ai_analysis = some a →
      (pollTick s (Except.ok d)).1.aiUnderstanding = analysisLines a ∧
      ((a.mode = none ∨ a.mode = some "") →
        (analysisLines a).head? = some "• Mode: custom") ∧
      ((a.detected_emotion = none ∨ a.detected_emotion = some "") →
        (analysisLines a).get? 1 = some "• Detected emotion: balanced") ∧
      ((a.operations_count = none ∨ a.operations_count = some 0) →
        (analysisLines a).get? 2 = some "• Operations: 0")) ∧
    (d.ai_analysis = none →
      (pollTick s (Except.ok d)).1.aiUnderstanding = s.aiUnderstanding) := by
  constructor
  · intro ha
    refine ⟨by rw [pollTick_aiUnderstanding, ha], ?_, ?_, ?_⟩
    · rintro (h | h) <;> simp [analysisLines, jsOrS, h]
    · rintro (h | h) <;> simp [analysisLines, jsOrS, h]
    · rintro (h | h) <;> simp [analysisLines, jsOrN, h] <;> rfl
  · intro ha
    rw [pollTick_aiUnderstanding, ha]

/-- An analysis object whose three fields are all falsy in JavaScript. -/
def aC10 : AiAnalysis :=
  { mode := none, detected_emotion := some "", operations_count := some 0 }

/-- A processing response carrying the all-falsy analysis object. -/
def dC10 : StatusData :=
  { status := "processing", progress_percentage := some 40,
    ai_analysis := some aC10, output_video := none }

/-- Witness for C10: fallbacks on an all-falsy analysis object, and an
object-free response leaving the panel untouched. -/
theorem C10_display_defaults_witness :
    (pollTick initialClient (Except.ok dC10)).1.aiUnderstanding =
        analysisLines aC10 ∧
      (analysisLines aC10).head? = some "• Mode: custom" ∧
      (analysisLines aC10).get? 1 = some "• Detected emotion: balanced" ∧
      (analysisLines aC10).get? 2 = some "• Operations: 0" ∧
      (pollTick initialClient (Except.ok dProcessing)).1.aiUnderstanding =
        initialClient.aiUnderstanding := by
  have h1 := (C10_display_defaults initialClient dC10 aC10).1 rfl
  have h2 := (C10_display_defaults initialClient dProcessing aC10).2 rfl
  exact ⟨h1.1, h1.2.1 (Or.inl rfl), h1.2.2.1 (Or.inr rfl),
    h1.2.2.2 (Or.inr rfl), h2⟩
